import Mathlib

/-!
Shallow embedding of `GPS_tracker.py` (NMEA GPS tracker module).

Numeric model: Python floats are embedded as `ℚ` in the parsing/decoding
layer (every operation performed there is exact decimal arithmetic) and as
`ℝ` in the trigonometric geofence layer.  A Python function that may raise
is embedded with an `Option`/`Except` result, `none`/`.error` marking the
raised exception.  The external call `time.mktime` is an oracle parameter;
`pynmea2.parse` results are modelled as already-parsed messages carrying the
raw string fields the source reads from them.
-/

/-- Digits of an ASCII decimal string folded into a natural number, as the
integer part of Python's `float(s)` computes it on an all-digit string. -/
def natOfDigits (cs : List Char) : ℕ :=
  cs.foldl (fun a c => 10 * a + (c.toNat - 48)) 0

/-- Split a character list at every dot, helper for the model of the Python
builtin `float`. -/
def splitDot : List Char → List (List Char)
  | [] => [[]]
  | c :: cs =>
    if c = '.' then [] :: splitDot cs
    else
      match splitDot cs with
      | [] => [[c]]
      | h :: t => (c :: h) :: t

/-- Models the Python builtin `float(s)` on the plain decimal literals this
program feeds it (an optional sign, digits, at most one dot, at least one
digit overall).  Returns `none` where `float` raises `ValueError`. -/
def pyFloat (cs : List Char) : Option ℚ :=
  let sgn : ℚ := match cs with | '-' :: _ => -1 | _ => 1
  let body : List Char :=
    match cs with | '-' :: rest => rest | '+' :: rest => rest | _ => cs
  match splitDot body with
  | [ip] =>
      if ip.length > 0 && ip.all Char.isDigit then
        some (sgn * natOfDigits ip)
      else none
  | [ip, fp] =>
      if (ip.length + fp.length > 0) && ip.all Char.isDigit
          && fp.all Char.isDigit then
        some (sgn * ((natOfDigits ip : ℚ) + natOfDigits fp / 10 ^ fp.length))
      else none
  | _ => none

/-- The `deg_len` computation of `_nmea_to_decimal` (GPS_tracker.py lines
210-214).  Python's `coord_str.find('.')` is `findIdx?` on the characters,
`none` standing for `-1`. -/
def deg_len_of (coord_str : String) : ℕ :=
  match coord_str.data.findIdx? (fun c => c = '.') with
  | none => if coord_str.length ≤ 4 then 2 else coord_str.length - 4
  | some dot_pos => if dot_pos ≤ 4 then 2 else dot_pos - 2

/-- Embedding of `_nmea_to_decimal` (GPS_tracker.py lines 202-221).
`none` marks a raised exception: the explicit `ValueError` on an empty
string, or `float()` failing on the degree/minute slice.  The string slices
`coord_str[:deg_len]` / `coord_str[deg_len:]` are `take` / `drop` on the
characters.  No range check is performed, exactly as in the source. -/
def nmea_to_decimal (coord_str direction : String) : Option ℚ :=
  if coord_str.data = [] then none
  else
    match pyFloat (coord_str.data.take (deg_len_of coord_str)),
          pyFloat (coord_str.data.drop (deg_len_of coord_str)) with
    | some degrees, some minutes =>
        some (if direction = "S" ∨ direction = "W"
              then -(degrees + minutes / 60)
              else degrees + minutes / 60)
    | _, _ => none

/-- A `datetime.time` value as `pynmea2` hands it to the tracker: the fields
`hour`, `minute`, `second` read by the source. -/
structure StructTime where
  hour : ℤ
  minute : ℤ
  second : ℤ
deriving DecidableEq

/-- A `datetime.date` value from an RMC sentence: the fields `year`,
`month`, `day` read by the source. -/
structure StructDate where
  year : ℤ
  month : ℤ
  day : ℤ
deriving DecidableEq

/-- The fields of `time.localtime()` that `_nmea_time_to_epoch` reads. -/
structure LocalTime where
  tm_year : ℤ
  tm_mon : ℤ
  tm_mday : ℤ
  tm_wday : ℤ
  tm_yday : ℤ
  tm_isdst : ℤ
deriving DecidableEq

/-- The 9-tuple argument of `time.mktime`. -/
structure TimeTuple where
  year : ℤ
  month : ℤ
  day : ℤ
  hour : ℤ
  minute : ℤ
  second : ℤ
  wday : ℤ
  yday : ℤ
  isdst : ℤ
deriving DecidableEq

/-- Embedding of `_nmea_time_to_epoch` (GPS_tracker.py lines 224-239).
`mktime` is the oracle for the external `time.mktime`, `.error` marking a
raised exception; the surrounding `try/except` turns any such exception into
`None`, so this function itself is total and never raises. -/
def nmea_time_to_epoch (mktime : TimeTuple → Except Unit ℚ) (now : LocalTime)
    (nmea_time : Option StructTime) : Option ℚ :=
  match nmea_time with
  | none => none
  | some t =>
    match mktime ⟨now.tm_year, now.tm_mon, now.tm_mday,
                  t.hour, t.minute, t.second,
                  now.tm_wday, now.tm_yday, now.tm_isdst⟩ with
    | Except.ok epoch => some epoch
    | Except.error _ => none

/-- Embedding of `_nmea_datetime_to_epoch` (GPS_tracker.py lines 242-254).
If either component is `None` it falls back to `_nmea_time_to_epoch`; its
own `try/except` turns any `mktime` exception into `None`. -/
def nmea_datetime_to_epoch (mktime : TimeTuple → Except Unit ℚ)
    (now : LocalTime) (datestamp : Option StructDate)
    (timestamp : Option StructTime) : Option ℚ :=
  match datestamp, timestamp with
  | some dt, some t =>
    match mktime ⟨dt.year, dt.month, dt.day,
                  t.hour, t.minute, t.second, 0, 0, -1⟩ with
    | Except.ok epoch => some epoch
    | Except.error _ => none
  | _, _ => nmea_time_to_epoch mktime now timestamp

/-- The `Position` value class (GPS_tracker.py lines 38-51). -/
structure Position where
  lat : ℚ
  lon : ℚ
  alt : Option ℚ
  timestamp : Option ℚ
deriving DecidableEq

/-- A parsed NMEA message as `pynmea2.parse` returns it, restricted to the
fields the tracker reads.  `gga` and `rmc` carry the raw string coordinate
fields (`""` for an empty field, matching Python falsiness); every other
sentence type the parser can return is `other`.  Lines that fail checksum or
parsing are skipped by the loop before this point and so never appear. -/
inductive NmeaMsg where
  | gga (lat lat_dir lon lon_dir : String) (alt : Option String)
        (timestamp : Option StructTime)
  | rmc (lat lat_dir lon lon_dir : String) (status : String)
        (datestamp : Option StructDate) (timestamp : Option StructTime)
  | other

/-- Embedding of the per-message fix extraction of `GPSTracker._read_loop`
(GPS_tracker.py lines 137-154): dispatch on the sentence type, build a
`Position` for a GGA with non-empty coordinates or an RMC with non-empty
coordinates and status `"A"`.  `.error` marks an exception raised while
decoding (empty/unparseable angle string, unparseable altitude), which the
enclosing loop body catches; `.ok none` means the line yields no position. -/
def decode_msg (mktime : TimeTuple → Except Unit ℚ) (now : LocalTime) :
    NmeaMsg → Except Unit (Option Position)
  | NmeaMsg.gga lat lat_dir lon lon_dir alt ts =>
    if lat ≠ "" ∧ lon ≠ "" then
      match nmea_to_decimal lat lat_dir, nmea_to_decimal lon lon_dir with
      | some la, some lo =>
        match alt with
        | none => Except.ok (some ⟨la, lo, none, nmea_time_to_epoch mktime now ts⟩)
        | some a =>
          if a = "" then
            Except.ok (some ⟨la, lo, none, nmea_time_to_epoch mktime now ts⟩)
          else
            match pyFloat a.data with
            | some av =>
                Except.ok (some ⟨la, lo, some av, nmea_time_to_epoch mktime now ts⟩)
            | none => Except.error ()
      | _, _ => Except.error ()
    else Except.ok none
  | NmeaMsg.rmc lat lat_dir lon lon_dir status ds ts =>
    if lat ≠ "" ∧ lon ≠ "" ∧ status = "A" then
      match nmea_to_decimal lat lat_dir, nmea_to_decimal lon lon_dir with
      | some la, some lo =>
          Except.ok (some ⟨la, lo, none, nmea_datetime_to_epoch mktime now ds ts⟩)
      | _, _ => Except.error ()
    else Except.ok none
  | NmeaMsg.other => Except.ok none

/-- The mutable state of a `GPSTracker` instance relevant to positions:
`_history`'s capacity (`deque(maxlen=history_size)`), `_last_position`, and
the history contents (oldest first).  The lock makes each write of
GPS_tracker.py lines 157-159 atomic, so one atomic state transition models
it. -/
structure GPSTracker where
  history_size : ℕ
  last_position : Option Position
  history : List Position
deriving DecidableEq

/-- `GPSTracker.__init__` (GPS_tracker.py lines 63-79): empty bounded
history, no last position. -/
def GPSTracker.init (history_size : ℕ) : GPSTracker :=
  ⟨history_size, none, []⟩

/-- The locked write of `GPSTracker._read_loop` (GPS_tracker.py lines
156-159): set `_last_position` and append to the bounded deque, which keeps
only the most recent `maxlen` elements (`List.rtake`). -/
def GPSTracker.record (s : GPSTracker) (p : Position) : GPSTracker :=
  { s with last_position := some p,
           history := (s.history ++ [p]).rtake s.history_size }

/-- `GPSTracker.get_last` (GPS_tracker.py lines 170-172). -/
def GPSTracker.get_last (s : GPSTracker) : Option Position :=
  s.last_position

/-- `GPSTracker.get_history` (GPS_tracker.py lines 174-176): a snapshot copy
of the deque, oldest first. -/
def GPSTracker.get_history (s : GPSTracker) : List Position :=
  s.history

/-- Embedding of `GPSTracker._read_loop` (GPS_tracker.py lines 109-168).
`open_result` is the outcome of `_open_serial`: `.error e` when
`serial.Serial` raises, otherwise the parsed messages of the lines read
until the stop event.  On an open failure the loop prints one error line and
returns without reading; otherwise each message is decoded, a produced
position is recorded, and a decode exception is logged by the per-iteration
handler and the loop continues.  Returns the final store state and the log
lines printed. -/
def GPSTracker.read_loop (mktime : TimeTuple → Except Unit ℚ)
    (now : LocalTime) (open_result : Except String (List NmeaMsg))
    (s : GPSTracker) : GPSTracker × List String :=
  match open_result with
  | Except.error e => (s, ["error opening serial: " ++ e])
  | Except.ok msgs =>
    msgs.foldl
      (fun acc m =>
        match decode_msg mktime now m with
        | Except.error _ => (acc.1, acc.2 ++ ["read loop error"])
        | Except.ok none => acc
        | Except.ok (some p) => (acc.1.record p, acc.2))
      (s, [])

/-- Embedding of `GPSTracker.start` (GPS_tracker.py lines 85-91): it only
clears the stop event and spawns the thread running `_read_loop`; the serial
port is opened inside that thread, so `start` itself raises nothing — the
first component, the exception propagated to `start`'s caller, is always
`none`, and the second is the eventual effect of the spawned loop. -/
def GPSTracker.start (mktime : TimeTuple → Except Unit ℚ) (now : LocalTime)
    (open_result : Except String (List NmeaMsg)) (s : GPSTracker) :
    Option String × (GPSTracker × List String) :=
  (none, GPSTracker.read_loop mktime now open_result s)

/-- `math.radians` as used by `haversine_distance_m`. -/
noncomputable def radians (x : ℝ) : ℝ :=
  x * (Real.pi / 180)

open Classical in
/-- `math.atan2(y, x)` on the reals (no signed zeros). -/
noncomputable def atan2 (y x : ℝ) : ℝ :=
  if 0 < x then Real.arctan (y / x)
  else if x < 0 then
    (if 0 ≤ y then Real.arctan (y / x) + Real.pi
     else Real.arctan (y / x) - Real.pi)
  else
    (if 0 < y then Real.pi / 2
     else if y < 0 then -(Real.pi / 2)
     else 0)

/-- Embedding of `haversine_distance_m` (GPS_tracker.py lines 257-271) on
the reals. -/
noncomputable def haversine_distance_m (p1 p2 : ℝ × ℝ) : ℝ :=
  6371000 *
    (2 * atan2
      (Real.sqrt (Real.sin (radians (p2.1 - p1.1) / 2) ^ 2 +
        Real.cos (radians p1.1) * Real.cos (radians p2.1) *
          Real.sin (radians (p2.2 - p1.2) / 2) ^ 2))
      (Real.sqrt (1 - (Real.sin (radians (p2.1 - p1.1) / 2) ^ 2 +
        Real.cos (radians p1.1) * Real.cos (radians p2.1) *
          Real.sin (radians (p2.2 - p1.2) / 2) ^ 2))))

open Classical in
/-- `GPSTracker.geofence_check_circle` (GPS_tracker.py lines 187-197):
`none` when no position is known, otherwise whether the haversine distance
from the last position to the center is at most the radius. -/
noncomputable def GPSTracker.geofence_check_circle (s : GPSTracker)
    (center : ℝ × ℝ) (radius_m : ℝ) : Option Bool :=
  match GPSTracker.get_last s with
  | none => none
  | some last =>
    some (if haversine_distance_m ((last.lat : ℝ), (last.lon : ℝ)) center ≤ radius_m
          then true else false)

/-- A concrete `mktime` oracle that always raises, for witnesses. -/
def mkFail : TimeTuple → Except Unit ℚ :=
  fun _ => Except.error ()

/-- A concrete `mktime` oracle that always succeeds, for witnesses. -/
def mkZero : TimeTuple → Except Unit ℚ :=
  fun _ => Except.ok 0

/-- A concrete `time.localtime()` value, for witnesses. -/
def nowW : LocalTime :=
  ⟨2026, 10, 12, 0, 285, 0⟩

/-- A concrete time of day, for witnesses. -/
def timeW : StructTime :=
  ⟨12, 34, 56⟩

/-- A concrete calendar date, for witnesses. -/
def dateW : StructDate :=
  ⟨2026, 10, 12⟩

/-- Concrete positions, for witnesses. -/
def posA : Position := ⟨1, 2, none, none⟩

def posB : Position := ⟨3, 4, none, none⟩

def posC : Position := ⟨5, 6, some 7, some 8⟩

/-! ## Lemmas about the coordinate converter -/

/-- Successful runs of `_nmea_to_decimal`: when both slices parse, the result
is degrees + minutes/60, negated for a southern or western hemisphere. -/
theorem nmea_to_decimal_eq (coord_str direction : String) (d m : ℚ)
    (h0 : coord_str.data ≠ [])
    (hd : pyFloat (coord_str.data.take (deg_len_of coord_str)) = some d)
    (hm : pyFloat (coord_str.data.drop (deg_len_of coord_str)) = some m) :
    nmea_to_decimal coord_str direction =
      some (if direction = "S" ∨ direction = "W" then -(d + m / 60)
            else d + m / 60) := by
  unfold nmea_to_decimal
  rw [if_neg h0, hd, hm]

theorem pyFloat_49 : pyFloat ['4', '9'] = some 49 := by
  have hs : splitDot ['4', '9'] = [['4', '9']] := by decide
  have hn : natOfDigits ['4', '9'] = 49 := by decide
  simp [pyFloat, hs, hn]

theorem pyFloat_99 : pyFloat ['9', '9'] = some 99 := by
  have hs : splitDot ['9', '9'] = [['9', '9']] := by decide
  have hn : natOfDigits ['9', '9'] = 99 := by decide
  simp [pyFloat, hs, hn]

theorem pyFloat_123 : pyFloat ['1', '2', '3'] = some 123 := by
  have hs : splitDot ['1', '2', '3'] = [['1', '2', '3']] := by decide
  have hn : natOfDigits ['1', '2', '3'] = 123 := by decide
  simp [pyFloat, hs, hn]

theorem pyFloat_12 : pyFloat ['1', '2'] = some 12 := by
  have hs : splitDot ['1', '2'] = [['1', '2']] := by decide
  have hn : natOfDigits ['1', '2'] = 12 := by decide
  simp [pyFloat, hs, hn]

theorem pyFloat_16_45 : pyFloat ['1', '6', '.', '4', '5'] = some (329 / 20) := by
  have hs : splitDot ['1', '6', '.', '4', '5'] = [['1', '6'], ['4', '5']] := by decide
  have h1 : natOfDigits ['1', '6'] = 16 := by decide
  have h2 : natOfDigits ['4', '5'] = 45 := by decide
  simp [pyFloat, hs, h1, h2]
  norm_num

theorem pyFloat_11_12 : pyFloat ['1', '1', '.', '1', '2'] = some (278 / 25) := by
  have hs : splitDot ['1', '1', '.', '1', '2'] = [['1', '1'], ['1', '2']] := by decide
  have h1 : natOfDigits ['1', '1'] = 11 := by decide
  have h2 : natOfDigits ['1', '2'] = 12 := by decide
  simp [pyFloat, hs, h1, h2]
  norm_num

theorem pyFloat_3_45 : pyFloat ['3', '.', '4', '5'] = some (69 / 20) := by
  have hs : splitDot ['3', '.', '4', '5'] = [['3'], ['4', '5']] := by decide
  have h1 : natOfDigits ['3'] = 3 := by decide
  have h2 : natOfDigits ['4', '5'] = 45 := by decide
  simp [pyFloat, hs, h1, h2]
  norm_num

theorem pyFloat_545_4 : pyFloat ['5', '4', '5', '.', '4'] = some (2727 / 5) := by
  have hs : splitDot ['5', '4', '5', '.', '4'] = [['5', '4', '5'], ['4']] := by decide
  have h1 : natOfDigits ['5', '4', '5'] = 545 := by decide
  have h2 : natOfDigits ['4'] = 4 := by decide
  simp [pyFloat, hs, h1, h2]
  norm_num

theorem nmea_4916 : nmea_to_decimal "4916.45" "N" = some (59129 / 1200) := by
  have hd : pyFloat ("4916.45".data.take (deg_len_of "4916.45")) = some 49 := by
    rw [show "4916.45".data.take (deg_len_of "4916.45") = ['4', '9'] from by decide]
    exact pyFloat_49
  have hm : pyFloat ("4916.45".data.drop (deg_len_of "4916.45")) = some (329 / 20) := by
    rw [show "4916.45".data.drop (deg_len_of "4916.45") = ['1', '6', '.', '4', '5'] from by decide]
    exact pyFloat_16_45
  rw [nmea_to_decimal_eq "4916.45" "N" 49 (329 / 20) (by decide) hd hm,
      if_neg (by decide)]
  norm_num

theorem nmea_12311 : nmea_to_decimal "12311.12" "W" = some (-(92389 / 750)) := by
  have hd : pyFloat ("12311.12".data.take (deg_len_of "12311.12")) = some 123 := by
    rw [show "12311.12".data.take (deg_len_of "12311.12") = ['1', '2', '3'] from by decide]
    exact pyFloat_123
  have hm : pyFloat ("12311.12".data.drop (deg_len_of "12311.12")) = some (278 / 25) := by
    rw [show "12311.12".data.drop (deg_len_of "12311.12") = ['1', '1', '.', '1', '2'] from by decide]
    exact pyFloat_11_12
  rw [nmea_to_decimal_eq "12311.12" "W" 123 (278 / 25) (by decide) hd hm,
      if_pos (Or.inr rfl)]
  norm_num

theorem nmea_9916 : nmea_to_decimal "9916.45" "N" = some (119129 / 1200) := by
  have hd : pyFloat ("9916.45".data.take (deg_len_of "9916.45")) = some 99 := by
    rw [show "9916.45".data.take (deg_len_of "9916.45") = ['9', '9'] from by decide]
    exact pyFloat_99
  have hm : pyFloat ("9916.45".data.drop (deg_len_of "9916.45")) = some (329 / 20) := by
    rw [show "9916.45".data.drop (deg_len_of "9916.45") = ['1', '6', '.', '4', '5'] from by decide]
    exact pyFloat_16_45
  rw [nmea_to_decimal_eq "9916.45" "N" 99 (329 / 20) (by decide) hd hm,
      if_neg (by decide)]
  norm_num

theorem nmea_123_45 : nmea_to_decimal "123.45" "N" = some (4823 / 400) := by
  have hd : pyFloat ("123.45".data.take (deg_len_of "123.45")) = some 12 := by
    rw [show "123.45".data.take (deg_len_of "123.45") = ['1', '2'] from by decide]
    exact pyFloat_12
  have hm : pyFloat ("123.45".data.drop (deg_len_of "123.45")) = some (69 / 20) := by
    rw [show "123.45".data.drop (deg_len_of "123.45") = ['3', '.', '4', '5'] from by decide]
    exact pyFloat_3_45
  rw [nmea_to_decimal_eq "123.45" "N" 12 (69 / 20) (by decide) hd hm,
      if_neg (by decide)]
  norm_num

/-- C6: for every valid angle string whose degree and minute slices parse,
the converter returns degrees + minutes/60, negated exactly for hemisphere
`S` or `W`; in particular `("4916.45","N")` yields `59129/1200 =
49.274166...` and `("12311.12","W")` yields `-(92389/750) =
-123.185333...`. -/
theorem gps_C6 :
    (∀ (coord_str direction : String) (d m : ℚ),
        coord_str.data ≠ [] →
        pyFloat (coord_str.data.take (deg_len_of coord_str)) = some d →
        pyFloat (coord_str.data.drop (deg_len_of coord_str)) = some m →
        nmea_to_decimal coord_str direction =
          some (if direction = "S" ∨ direction = "W" then -(d + m / 60)
                else d + m / 60))
    ∧ nmea_to_decimal "4916.45" "N" = some (59129 / 1200)
    ∧ nmea_to_decimal "12311.12" "W" = some (-(92389 / 750)) :=
  ⟨nmea_to_decimal_eq, nmea_4916, nmea_12311⟩

/-- Witness for C6 at the concrete input `("4916.45","E")`. -/
theorem gps_C6_witness :
    nmea_to_decimal "4916.45" "E" =
      some (if ("E" : String) = "S" ∨ ("E" : String) = "W"
            then -((49 : ℚ) + 329 / 20 / 60) else (49 : ℚ) + 329 / 20 / 60) := by
  have hd : pyFloat ("4916.45".data.take (deg_len_of "4916.45")) = some 49 := by
    rw [show "4916.45".data.take (deg_len_of "4916.45") = ['4', '9'] from by decide]
    exact pyFloat_49
  have hm : pyFloat ("4916.45".data.drop (deg_len_of "4916.45")) = some (329 / 20) := by
    rw [show "4916.45".data.drop (deg_len_of "4916.45") = ['1', '6', '.', '4', '5'] from by decide]
    exact pyFloat_16_45
  exact gps_C6.1 "4916.45" "E" 49 (329 / 20) (by decide) hd hm

/-- C3 counterexample: for `"123.45"` the dot is at index 3, but the
converter takes 2 leading characters as the degree part, not
`dot_position - 2 = 1`; the resulting value is `12 + 3.45/60`, not the
`1 + 23.45/60` the claimed split would give. -/
theorem gps_C3_cex :
    "123.45".data.findIdx? (fun c => c = '.') = some 3
    ∧ deg_len_of "123.45" ≠ 3 - 2
    ∧ nmea_to_decimal "123.45" "N" = some (4823 / 400)
    ∧ (4823 / 400 : ℚ) ≠ 1 + (469 / 20) / 60 := by
  refine ⟨by decide, by decide, nmea_123_45, by norm_num⟩

/-- C3 (amended): for every coordinate string containing a decimal point at
character index `dot_pos`, the converter takes `max 2 (dot_pos - 2)` leading
characters as the degree part — `dot_pos - 2` only when the dot is at index
5 or later, and exactly 2 when the dot is at index 4 or earlier; hence 2
degree digits for a latitude-shaped string (dot at 4) and 3 for a
longitude-shaped string (dot at 5), without assuming a fixed string
length. -/
theorem gps_C3 : ∀ (s : String) (dot_pos : ℕ),
    s.data.findIdx? (fun c => c = '.') = some dot_pos →
    deg_len_of s = max 2 (dot_pos - 2) := by
  intro s d h
  have hd : deg_len_of s = if d ≤ 4 then 2 else d - 2 := by
    unfold deg_len_of; rw [h]
  rw [hd]
  split_ifs with h4 <;> omega

/-- Witness for C3 (amended) at the longitude-shaped string
`"12311.12"`. -/
theorem gps_C3_witness : deg_len_of "12311.12" = max 2 (5 - 2) :=
  gps_C3 "12311.12" 5 (by decide)

/-! ## Timestamp normalization and the sentence decoder -/

/-- C7: both timestamp entry points fail soft — whenever the external
`mktime` raises, the result is an absent timestamp rather than a propagated
failure (both functions are total by construction); the date+time path falls
back to the time-only path when either component is absent; and the
time-only path on an absent time yields an absent timestamp. -/
theorem gps_C7 : ∀ (mk : TimeTuple → Except Unit ℚ) (now : LocalTime)
    (ds : Option StructDate) (ts : Option StructTime),
    ((∀ tup, mk tup = Except.error ()) →
        nmea_time_to_epoch mk now ts = none
        ∧ nmea_datetime_to_epoch mk now ds ts = none)
    ∧ ((ds = none ∨ ts = none) →
        nmea_datetime_to_epoch mk now ds ts = nmea_time_to_epoch mk now ts)
    ∧ nmea_time_to_epoch mk now none = none := by
  intro mk now ds ts
  refine ⟨?_, ?_, rfl⟩
  · intro h
    constructor
    · cases ts with
      | none => rfl
      | some t => simp [nmea_time_to_epoch, h]
    · cases ds <;> cases ts <;>
        simp [nmea_datetime_to_epoch, nmea_time_to_epoch, h]
  · rintro (rfl | rfl)
    · cases ts <;> rfl
    · cases ds <;> rfl

/-- Witness for C7 with an always-raising `mktime` and both components
present. -/
theorem gps_C7_witness :
    nmea_time_to_epoch mkFail nowW (some timeW) = none
    ∧ nmea_datetime_to_epoch mkFail nowW (some dateW) (some timeW) = none :=
  (gps_C7 mkFail nowW (some dateW) (some timeW)).1 (fun _ => rfl)

/-- C4: an RMC message whose status is not `"A"` never yields a position,
whatever its coordinate fields hold; with status `"A"` and non-empty,
decodable coordinates it yields a position whose altitude is absent. -/
theorem gps_C4 : ∀ (mk : TimeTuple → Except Unit ℚ) (now : LocalTime)
    (lat lat_dir lon lon_dir status : String)
    (ds : Option StructDate) (ts : Option StructTime),
    (status ≠ "A" →
      decode_msg mk now (NmeaMsg.rmc lat lat_dir lon lon_dir status ds ts)
        = Except.ok none)
    ∧ (∀ la lo : ℚ, lat ≠ "" → lon ≠ "" → status = "A" →
        nmea_to_decimal lat lat_dir = some la →
        nmea_to_decimal lon lon_dir = some lo →
        decode_msg mk now (NmeaMsg.rmc lat lat_dir lon lon_dir status ds ts)
          = Except.ok (some ⟨la, lo, none, nmea_datetime_to_epoch mk now ds ts⟩)) := by
  intro mk now lat lat_dir lon lon_dir status ds ts
  constructor
  · intro hs
    simp only [decode_msg]
    rw [if_neg (fun hc => hs hc.2.2)]
  · intro la lo h1 h2 h3 hla hlo
    simp only [decode_msg]
    rw [if_pos ⟨h1, h2, h3⟩, hla, hlo]

/-- Witness for C4 on a concrete active RMC message with the fixture
coordinates. -/
theorem gps_C4_witness :
    decode_msg mkZero nowW
      (NmeaMsg.rmc "4916.45" "N" "12311.12" "W" "A" (some dateW) (some timeW))
      = Except.ok (some ⟨59129 / 1200, -(92389 / 750), none,
          nmea_datetime_to_epoch mkZero nowW (some dateW) (some timeW)⟩) :=
  (gps_C4 mkZero nowW "4916.45" "N" "12311.12" "W" "A" (some dateW)
    (some timeW)).2 (59129 / 1200) (-(92389 / 750)) (by decide) (by decide)
    rfl nmea_4916 nmea_12311

/-- C1 counterexample: the decoder emits an out-of-range latitude.  The GGA
coordinate string `"9916.45"` with hemisphere `N` decodes to
`119129/1200 ≈ 99.274 > 90`, and the resulting `Position` is produced
(`Except.ok (some _)`), not rejected as a decode failure. -/
theorem gps_C1_cex :
    decode_msg mkFail nowW
      (NmeaMsg.gga "9916.45" "N" "12311.12" "W" (some "545.4") none)
      = Except.ok (some ⟨119129 / 1200, -(92389 / 750), some (2727 / 5), none⟩)
    ∧ ¬((119129 / 1200 : ℚ) ≤ 90) := by
  constructor
  · have h1 : ("9916.45" : String) ≠ "" := by decide
    have h2 : ("12311.12" : String) ≠ "" := by decide
    have ha : ("545.4" : String) ≠ "" := by decide
    simp [decode_msg, h1, h2, ha, nmea_9916, nmea_12311, pyFloat_545_4,
          nmea_time_to_epoch]
  · norm_num

/-- C1 (amended): the decoder performs no range check and never clamps — a
GGA message with non-empty coordinate fields whose angle strings decode
emits the converter's values unchanged, whatever their magnitude; an angle
string the converter fails on makes the whole line a decode failure rather
than a clamped value. -/
theorem gps_C1 : ∀ (mk : TimeTuple → Except Unit ℚ) (now : LocalTime)
    (lat lat_dir lon lon_dir : String) (ts : Option StructTime),
    lat ≠ "" → lon ≠ "" →
    (∀ la lo : ℚ, nmea_to_decimal lat lat_dir = some la →
        nmea_to_decimal lon lon_dir = some lo →
        decode_msg mk now (NmeaMsg.gga lat lat_dir lon lon_dir none ts)
          = Except.ok (some ⟨la, lo, none, nmea_time_to_epoch mk now ts⟩))
    ∧ (nmea_to_decimal lat lat_dir = none →
        decode_msg mk now (NmeaMsg.gga lat lat_dir lon lon_dir none ts)
          = Except.error ()) := by
  intro mk now lat lat_dir lon lon_dir ts h1 h2
  constructor
  · intro la lo hla hlo
    simp only [decode_msg]
    rw [if_pos ⟨h1, h2⟩, hla, hlo]
  · intro hla
    simp only [decode_msg]
    rw [if_pos ⟨h1, h2⟩, hla]

/-- Witness for C1 (amended): the out-of-range latitude `99.274...` passes
through unchanged. -/
theorem gps_C1_witness :
    decode_msg mkFail nowW (NmeaMsg.gga "9916.45" "N" "12311.12" "W" none none)
      = Except.ok (some ⟨119129 / 1200, -(92389 / 750), none,
          nmea_time_to_epoch mkFail nowW none⟩) :=
  (gps_C1 mkFail nowW "9916.45" "N" "12311.12" "W" none (by decide)
    (by decide)).1 (119129 / 1200) (-(92389 / 750)) nmea_9916 nmea_12311

/-! ## The tracking loop's lifecycle -/

/-- C2 counterexample: with a line source whose open fails, `start` still
returns no error to its caller — the failure is not reported synchronously
from `start`, contradicting the claim. -/
theorem gps_C2_cex :
    (GPSTracker.start mkFail nowW (Except.error "boom") (GPSTracker.init 5)).1
      = none := rfl

/-- C2 (amended): a failure opening the line source is caught inside the
background read loop, which logs one error line and exits without reading
any line or recording any position — the store is unchanged — while `start`
itself returns normally with no synchronous error. -/
theorem gps_C2 : ∀ (mk : TimeTuple → Except Unit ℚ) (now : LocalTime)
    (e : String) (s : GPSTracker),
    GPSTracker.start mk now (Except.error e) s
      = (none, s, ["error opening serial: " ++ e]) := by
  intro mk now e s
  rfl

/-! ## The bounded history store -/

/-- Retaking the last `n` elements after an append ignores elements already
evicted: deque semantics compose. -/
theorem rtake_append_rtake {α : Type} (n : ℕ) (l m : List α) :
    ((l.rtake n) ++ m).rtake n = (l ++ m).rtake n := by
  simp only [List.rtake_eq_reverse_take_reverse, List.reverse_append,
    List.reverse_reverse]
  rw [List.take_append_eq_append_take, List.take_append_eq_append_take,
    List.take_take]
  have h1 : min (n - m.reverse.length) n = n - m.reverse.length := by omega
  rw [h1]

/-- Folding `record` over a message list: the history is always the last
`history_size` elements of everything ever appended. -/
theorem foldl_record_history (cap : ℕ) (ps : List Position) :
    ∀ (h : List Position) (last : Option Position),
      (List.foldl GPSTracker.record ⟨cap, last, h.rtake cap⟩ ps).history
        = (h ++ ps).rtake cap := by
  induction ps with
  | nil => intro h last; simp
  | cons p ps ih =>
    intro h last
    have hrec : GPSTracker.record ⟨cap, last, h.rtake cap⟩ p
        = ⟨cap, some p, (h ++ [p]).rtake cap⟩ := by
      simp [GPSTracker.record, rtake_append_rtake]
    rw [List.foldl_cons, hrec, ih (h ++ [p]) (some p)]
    simp

/-- C5: the history never exceeds the capacity fixed at construction, and
after recording `capacity + k` positions the snapshot is exactly the last
`capacity` of them in insertion order. -/
theorem gps_C5 : ∀ (cap : ℕ) (ps : List Position),
    (List.foldl GPSTracker.record (GPSTracker.init cap) ps).get_history.length ≤ cap
    ∧ ∀ k, ps.length = cap + k →
        (List.foldl GPSTracker.record (GPSTracker.init cap) ps).get_history
          = ps.drop k := by
  intro cap ps
  have h0 : (GPSTracker.init cap) = (⟨cap, none, ([] : List Position).rtake cap⟩ : GPSTracker) := by
    simp [GPSTracker.init]
  have h : (List.foldl GPSTracker.record (GPSTracker.init cap) ps).get_history
      = ps.rtake cap := by
    rw [GPSTracker.get_history, h0, foldl_record_history cap ps [] none]
    simp
  constructor
  · rw [h]
    simp only [List.rtake, List.length_drop]
    omega
  · intro k hk
    rw [h]
    simp only [List.rtake, hk]
    congr 1
    omega

/-- Witness for C5: capacity 2 and three recorded positions leave exactly
the last two, in order. -/
theorem gps_C5_witness :
    (List.foldl GPSTracker.record (GPSTracker.init 2) [posA, posB, posC]).get_history
      = [posA, posB, posC].drop 1 :=
  (gps_C5 2 [posA, posB, posC]).2 1 rfl

/-- One `record` leaves `last_position` equal to the final history element
whenever the history is non-empty. -/
theorem record_last_getLast (s : GPSTracker) (p : Position) :
    (s.record p).history ≠ [] →
    (s.record p).last_position = (s.record p).history.getLast? := by
  intro hne
  cases hc : s.history_size with
  | zero =>
    exfalso
    apply hne
    simp [GPSTracker.record, hc]
  | succ n =>
    simp [GPSTracker.record, hc, List.rtake_concat_succ, List.getLast?_concat]

/-- Folding `record` preserves the last-position/history agreement. -/
theorem foldl_record_last (ps : List Position) :
    ∀ s : GPSTracker,
      (s.history ≠ [] → s.last_position = s.history.getLast?) →
      ((List.foldl GPSTracker.record s ps).history ≠ [] →
        (List.foldl GPSTracker.record s ps).last_position
          = (List.foldl GPSTracker.record s ps).history.getLast?) := by
  induction ps with
  | nil => intro s h; exact h
  | cons p ps ih => intro s _; exact ih (s.record p) (record_last_getLast s p)

/-- C10: after every `record` the stored last position is the final element
of the history, and for every state reachable from a fresh tracker the
accessors agree: a non-empty history's last element is `get_last`. -/
theorem gps_C10 : ∀ (cap : ℕ) (s : GPSTracker) (p : Position)
    (ps : List Position),
    ((s.record p).history ≠ [] →
      (s.record p).last_position = (s.record p).history.getLast?)
    ∧ ((List.foldl GPSTracker.record (GPSTracker.init cap) ps).history ≠ [] →
        GPSTracker.get_last (List.foldl GPSTracker.record (GPSTracker.init cap) ps)
          = (GPSTracker.get_history
              (List.foldl GPSTracker.record (GPSTracker.init cap) ps)).getLast?) :=
  fun cap s p ps =>
    ⟨record_last_getLast s p,
     foldl_record_last ps (GPSTracker.init cap) (fun h => absurd rfl h)⟩

/-- Witness for C10: two recorded positions at capacity 1. -/
theorem gps_C10_witness :
    GPSTracker.get_last (List.foldl GPSTracker.record (GPSTracker.init 1) [posA, posB])
      = (GPSTracker.get_history
          (List.foldl GPSTracker.record (GPSTracker.init 1) [posA, posB])).getLast? :=
  (gps_C10 1 (GPSTracker.init 1) posA [posA, posB]).2 (by decide)

/-! ## The geofence evaluator -/

/-- C9: the haversine distance is symmetric in its two coordinate pairs. -/
theorem gps_C9 : ∀ a b : ℝ × ℝ,
    haversine_distance_m a b = haversine_distance_m b a := by
  intro a b
  have hsq : ∀ x y : ℝ,
      Real.sin (radians (x - y) / 2) ^ 2 = Real.sin (radians (y - x) / 2) ^ 2 := by
    intro x y
    have hx : radians (x - y) = -(radians (y - x)) := by unfold radians; ring
    rw [hx, neg_div, Real.sin_neg]
    ring
  simp only [haversine_distance_m]
  rw [hsq a.1 b.1, hsq a.2 b.2,
    mul_comm (Real.cos (radians a.1)) (Real.cos (radians b.1))]

/-- C8: on a fresh tracker `get_last` is empty and the circular geofence
check returns the explicit `none` ("unknown"), distinct from `some true`
and `some false`; whenever a last position exists the check never returns
`none` and returns `some true` exactly when the haversine distance to the
center is at most the radius. -/
theorem gps_C8 : ∀ (cap : ℕ) (center : ℝ × ℝ) (r : ℝ),
    (GPSTracker.get_last (GPSTracker.init cap) = none
      ∧ GPSTracker.geofence_check_circle (GPSTracker.init cap) center r = none)
    ∧ ∀ (s : GPSTracker) (p : Position),
        GPSTracker.get_last s = some p →
        GPSTracker.geofence_check_circle s center r ≠ none
        ∧ (GPSTracker.geofence_check_circle s center r = some true ↔
            haversine_distance_m ((p.lat : ℝ), (p.lon : ℝ)) center ≤ r) := by
  intro cap center r
  refine ⟨⟨rfl, rfl⟩, ?_⟩
  intro s p hp
  unfold GPSTracker.geofence_check_circle
  rw [hp]
  constructor
  · simp
  · by_cases hd : haversine_distance_m ((p.lat : ℝ), (p.lon : ℝ)) center ≤ r
    · simp [hd]
    · simp [hd]

/-- Witness for C8 with a tracker holding one recorded position. -/
theorem gps_C8_witness :
    GPSTracker.geofence_check_circle ⟨1, some posA, [posA]⟩ (0, 0) 0 ≠ none
    ∧ (GPSTracker.geofence_check_circle ⟨1, some posA, [posA]⟩ (0, 0) 0 = some true ↔
        haversine_distance_m ((posA.lat : ℝ), (posA.lon : ℝ)) (0, 0) ≤ 0) :=
  (gps_C8 1 (0, 0) 0).2 ⟨1, some posA, [posA]⟩ posA rfl
